import Mathlib

/-!
Verification of the ipj-ls-backend service against its specification.

The repository is a set of near-duplicate revisions of one Express
server.  The definitions below are shallow embeddings of the request
handlers that the claims concern:

* the ping accept handler at server.js lines 352-374 and the identical
  handler in the first unnamed revision, lines 405-429;
* the duty registration handlers at server.js lines 236-255 (first
  revision) and lines 810-829 (second revision, which also reads roles
  from the request body);
* the duty coverage handlers at server.js lines 273-300 (first
  revision) and lines 846-857 (second revision);
* the stats handler at server.js lines 208-224;
* the submit-test handler in the first unnamed revision, lines 434-454;
* the tester code allocation inside the login callback, first unnamed
  revision lines 142-151;
* the tester-code endpoint, first unnamed revision lines 174-181;
* the login callback capability resolution, server.js lines 100-137.

State is passed explicitly: the lowdb document collections become lists
of records, the session user becomes an Option value, and the outcome
of each handler is a small inductive mirroring the HTTP responses the
source can produce.
-/

namespace IPJ

/-- The session user record stored by the login callback: an id, a
discord tag and the four capability flags. -/
structure SessionUser where
  id : String
  tag : String
  isTester : Bool
  isEditor : Bool
  canRadio : Bool
  canMDT : Bool
deriving DecidableEq

/-- A help-request ping as stored in the pings collection.  The
acceptedBy field holds the id and tag of the acceptor once set. -/
structure Ping where
  id : String
  testType : String
  note : String
  requesterId : String
  requesterTag : String
  time : String
  status : String
  acceptedBy : Option (String × String)
deriving DecidableEq

/-- Outcome of the ack-ping handler, mirroring the HTTP responses the
source can produce: 401 when there is no session, 404 when no ping
matches, 403 when a capability check fails, 200 on success. -/
inductive AckResult where
  | notAuth
  | notFound
  | forbidden
  | okAck
deriving DecidableEq

/-- HTTP status code of each ack-ping outcome. -/
def AckResult.httpStatus : AckResult → Nat
  | .notAuth => 401
  | .notFound => 404
  | .forbidden => 403
  | .okAck => 200

/-- Lookup of a ping by id, as pings.find in the source. -/
def findPing (pings : List Ping) (pid : String) : Option Ping :=
  pings.find? (fun p => p.id == pid)

/-- In the source the handler mutates the found ping object in place;
the found ping is the first list element with the given id, so the
update rewrites exactly the first match. -/
def updateFirst (pings : List Ping) (pid : String) (f : Ping → Ping) : List Ping :=
  match pings with
  | [] => []
  | p :: rest => if p.id == pid then f p :: rest else p :: updateFirst rest pid f

/-- The in-place mutation performed on success: status becomes
accepted and acceptedBy becomes the acceptor. -/
def acceptPing (u : SessionUser) (p : Ping) : Ping :=
  { p with status := "accepted", acceptedBy := some (u.id, u.tag) }

/-- Does the identity lack the capability the ping testType requires?
This is the disjunction of the three guard conditions in the handler. -/
def lacksCap (u : SessionUser) (testType : String) : Bool :=
  (testType == "radio" && !u.canRadio) ||
  (testType == "mdt" && !u.canMDT) ||
  (testType == "academie" && !(u.isTester || u.isEditor))

/-- The ack-ping handler, server.js lines 352-374.  It finds the ping,
runs the three capability guards, and on success mutates the record to
accepted with the caller as acceptor.  Note there is no check of the
current status: an already accepted ping is accepted again. -/
def ackPing (sessionUser : Option SessionUser) (pings : List Ping) (pid : String) :
    AckResult × List Ping :=
  match sessionUser with
  | none => (.notAuth, pings)
  | some u =>
    match findPing pings pid with
    | none => (.notFound, pings)
    | some p =>
      if p.testType == "radio" && !u.canRadio then (.forbidden, pings)
      else if p.testType == "mdt" && !u.canMDT then (.forbidden, pings)
      else if p.testType == "academie" && !(u.isTester || u.isEditor) then (.forbidden, pings)
      else (.okAck, updateFirst pings pid (acceptPing u))

/-- A duty registry record: user id, tag, role list and since stamp. -/
structure DutyRecord where
  id : String
  tag : String
  roles : List String
  since : String
deriving DecidableEq

/-- Roles stored by the duty-on handler of the first revision,
server.js lines 236-255: one spread per capability flag, where both
the isTester spread and the isEditor spread contribute general. -/
def dutyRoles (u : SessionUser) : List String :=
  (if u.canRadio then ["radio"] else []) ++
  (if u.canMDT then ["mdt"] else []) ++
  (if u.isTester then ["general"] else []) ++
  (if u.isEditor then ["general"] else [])

/-- Roles stored by the duty-on handler of the second revision,
server.js lines 810-829: the capability spreads omit the isEditor
case, and the roles array of the request body, filtered to the three
known role names, is appended. -/
def dutyRolesV2 (u : SessionUser) (bodyRoles : List String) : List String :=
  (if u.canRadio then ["radio"] else []) ++
  (if u.canMDT then ["mdt"] else []) ++
  (if u.isTester then ["general"] else []) ++
  bodyRoles.filter (fun x => x == "radio" || x == "mdt" || x == "general")

/-- ASCII lowering of one character, the effect of the JavaScript
toLowerCase call on the ASCII route parameters involved here. -/
def lowerChar (c : Char) : Char :=
  if c.isUpper then Char.ofNat (c.toNat + 32) else c

/-- ASCII lowering of a string. -/
def lowerStr (s : String) : String :=
  ⟨s.data.map lowerChar⟩

/-- The duty coverage check of the first revision, server.js lines
273-300: academie asks for a general record, radio and mdt for their
own role, anything else is false.  The route lowercases the type
parameter first. -/
def dutyAllow (duty : List DutyRecord) (ty : String) : Bool :=
  let t := lowerStr ty
  if t == "academie" then duty.any (fun u => u.roles.contains "general")
  else if t == "radio" then duty.any (fun u => u.roles.contains "radio")
  else if t == "mdt" then duty.any (fun u => u.roles.contains "mdt")
  else false

/-- The duty coverage check of the second revision, server.js lines
846-857: only radio and mdt are recognised; every other type,
academie included, is false. -/
def dutyAllowV2 (duty : List DutyRecord) (ty : String) : Bool :=
  let t := lowerStr ty
  if t == "radio" then duty.any (fun u => u.roles.contains "radio")
  else if t == "mdt" then duty.any (fun u => u.roles.contains "mdt")
  else false

/-- A stored test submission record. -/
structure TestSubmission where
  id : String
  testerCode : String
  userId : String
  testType : String
  result : String
  details : String
  createdAt : String
deriving DecidableEq

/-- A JavaScript numeric cell of the byResult map: incrementing a key
that is absent reads undefined, and undefined plus one is NaN, which
then absorbs every further increment. -/
inductive JsNum where
  | nan
  | num (n : Nat)
deriving DecidableEq

/-- Increment of a JavaScript numeric cell: NaN stays NaN. -/
def JsNum.inc : JsNum → JsNum
  | .nan => .nan
  | .num n => .num (n + 1)

/-- Addition on JavaScript numeric cells, NaN absorbing; used to sum a
dimension of the stats output. -/
def JsNum.add : JsNum → JsNum → JsNum
  | .nan, _ => .nan
  | _, .nan => .nan
  | .num a, .num b => .num (a + b)

/-- Sum of the values of a stats dimension. -/
def sumJs (l : List JsNum) : JsNum :=
  l.foldl JsNum.add (.num 0)

/-- One step of building byType or byDay: m at k becomes m at k or
zero, plus one.  Keys are kept in first-insertion order as a
JavaScript object does. -/
def bump (m : List (String × Nat)) (k : String) : List (String × Nat) :=
  match m with
  | [] => [(k, 1)]
  | (q, v) :: rest => if q == k then (q, v + 1) :: rest else (q, v) :: bump rest k

/-- The byType map of the stats handler, server.js lines 208-224. -/
def byType (tests : List TestSubmission) : List (String × Nat) :=
  tests.foldl (fun m t => bump m t.testType) []

/-- The day key of a submission: createdAt split at the letter T,
first component. -/
def dayOf (t : TestSubmission) : String :=
  (t.createdAt.splitOn "T").headD ""

/-- The byDay map of the stats handler. -/
def byDay (tests : List TestSubmission) : List (String × Nat) :=
  tests.foldl (fun m t => bump m (dayOf t)) []

/-- One step of building byResult: unlike bump there is no or-zero
default, so incrementing an absent key inserts NaN. -/
def bumpResult (m : List (String × JsNum)) (k : String) : List (String × JsNum) :=
  match m with
  | [] => [(k, .nan)]
  | (q, v) :: rest => if q == k then (q, v.inc) :: rest else (q, v) :: bumpResult rest k

/-- The byResult map of the stats handler: initialised with ADMIS and
RESPINS at zero, then incremented at each submission result. -/
def byResult (tests : List TestSubmission) : List (String × JsNum) :=
  tests.foldl (fun m t => bumpResult m t.result) [("ADMIS", .num 0), ("RESPINS", .num 0)]

/-- A tester registry entry: the code maps to a user id and a creation
stamp. -/
structure TesterEntry where
  userId : String
  createdAt : String
deriving DecidableEq

/-- Lookup of a tester registry entry by code. -/
def lookupTester (testers : List (String × TesterEntry)) (code : String) : Option TesterEntry :=
  (testers.find? (fun p => p.1 == code)).map Prod.snd

/-- Lookup of the registry entry held by a given user id, as the
Object.entries find in the login callback. -/
def findByUser (testers : List (String × TesterEntry)) (uid : String) :
    Option (String × TesterEntry) :=
  testers.find? (fun p => p.2.userId == uid)

/-- The tester code allocation step of the login callback, first
unnamed revision lines 142-151.  The source loops drawing random
candidate codes until one is not yet a key of the registry; here the
random draws are the cands list and the loop is the first fresh
candidate.  When no candidate is fresh the source never exits the
loop, so no write occurs; the model leaves the registry unchanged in
that case. -/
def testerCodeAlloc (testers : List (String × TesterEntry)) (isTester : Bool)
    (uid : String) (now : String) (cands : List String) : List (String × TesterEntry) :=
  if isTester && (findByUser testers uid).isNone then
    match cands.find? (fun c => (lookupTester testers c).isNone) with
    | some code => testers ++ [(code, ⟨uid, now⟩)]
    | none => testers
  else testers

/-- Request body of the submit-test endpoint. -/
structure SubmitBody where
  testerCode : String
  testType : String
  result : String
  details : String
deriving DecidableEq

/-- Outcome of the submit-test endpoint: a 200 with an error payload
for an unknown code, or a 200 ok after the write. -/
inductive SubmitOutcome where
  | invalidCode
  | okSubmit
deriving DecidableEq

/-- The submit-test handler, first unnamed revision lines 434-454.  It
rejects when the tester code is not a registry key, otherwise stores a
record built from the body verbatim plus the id, the resolved user id
and the current time.  No field other than the code is validated. -/
def submitTest (testers : List (String × TesterEntry)) (tests : List TestSubmission)
    (body : SubmitBody) (newId : String) (now : String) :
    SubmitOutcome × List TestSubmission :=
  match lookupTester testers body.testerCode with
  | none => (.invalidCode, tests)
  | some entry =>
    let stored : TestSubmission :=
      { id := newId, testerCode := body.testerCode, userId := entry.userId,
        testType := body.testType, result := body.result,
        details := body.details, createdAt := now }
    (.okSubmit, tests ++ [stored])

/-- A discord profile as returned by the users-at-me call. -/
structure DiscordUser where
  id : String
  username : String
  discriminator : String
deriving DecidableEq

/-- A guild member record: only the role id list matters here. -/
structure GuildMember where
  roles : List String
deriving DecidableEq

/-- The role id configuration read from the environment. -/
structure RoleConfig where
  testerRoles : List String
  editorRoles : List String
  radioRole : String
  mdtRole : String
  testerAny : String
deriving DecidableEq

/-- Outcome of the login callback.  fetchCrash is the TypeError the
source raises when the profile fetch returned null and user.id is
read: the handler aborts before the session assignment.  On success
the session user is the carried record. -/
inductive CallbackOutcome where
  | missingCode
  | oauthFailed
  | fetchCrash
  | success (u : SessionUser)
deriving DecidableEq

/-- The capability flags computed from a role list, server.js lines
122-125. -/
def capsOf (cfg : RoleConfig) (user : DiscordUser) (roles : List String) : SessionUser :=
  { id := user.id,
    tag := user.username ++ "#" ++ user.discriminator,
    isTester := roles.any (fun r => cfg.testerRoles.contains r || r == cfg.testerAny),
    isEditor := roles.any (fun r => cfg.editorRoles.contains r),
    canRadio := roles.contains cfg.radioRole,
    canMDT := roles.contains cfg.mdtRole }

/-- The login callback, server.js lines 100-137, with the external
calls passed in as values: the query code, whether the token exchange
produced an access token, the profile fetch result and the member
fetch result.  A null member only empties the role list; the session
is still assigned. -/
def callbackSession (cfg : RoleConfig) (code : Option String) (tokenOk : Bool)
    (profile : Option DiscordUser) (memberOf : Option GuildMember) : CallbackOutcome :=
  match code with
  | none => .missingCode
  | some _ =>
    if !tokenOk then .oauthFailed
    else
      match profile with
      | none => .fetchCrash
      | some user =>
        let roles := (memberOf.map GuildMember.roles).getD []
        .success (capsOf cfg user roles)

/-- Response of the tester-code endpoint: a status code and the code
payload, null when absent. -/
structure CodeResponse where
  httpStatus : Nat
  code : Option String
deriving DecidableEq

/-- The tester-code endpoint, first unnamed revision lines 174-181: a
missing session answers 200 with a null code, exactly like an
authenticated user that holds no code. -/
def testerCodeEndpoint (sessionUser : Option SessionUser)
    (testers : List (String × TesterEntry)) : CodeResponse :=
  match sessionUser with
  | none => ⟨200, none⟩
  | some u => ⟨200, (findByUser testers u.id).map Prod.fst⟩

/-- The three submissions of the worked stats example in the
specification, section 8.7. -/
def sampleSubmissions : List TestSubmission :=
  [⟨"s1", "A1", "u1", "radio", "ADMIS", "d", "2024-01-01T10:00:00Z"⟩,
   ⟨"s2", "A2", "u2", "radio", "RESPINS", "d", "2024-01-01T11:00:00Z"⟩,
   ⟨"s3", "A3", "u3", "mdt", "ADMIS", "d", "2024-01-02T09:00:00Z"⟩]

/-- Key uniqueness of the tester registry: no code appears twice, so
no code is held by two identities. -/
abbrev codesNodup (testers : List (String × TesterEntry)) : Prop :=
  (testers.map Prod.fst).Nodup

/-- At most one code per identity: two registry entries for the same
user id are the same entry (same code). -/
abbrev atMostOneCodePerUser (testers : List (String × TesterEntry)) : Prop :=
  ∀ p ∈ testers, ∀ q ∈ testers, p.2.userId = q.2.userId → p.1 = q.1

end IPJ

namespace IPJ

/-! Helper lemmas about the ping update. -/

/-- updateFirst only touches the first ping with the given id, and the
lookup afterwards returns the image of the old lookup, provided the
update keeps the id. -/
theorem findPing_updateFirst (pings : List Ping) (pid : String) (f : Ping → Ping)
    (hf : ∀ p, (f p).id = p.id) :
    findPing (updateFirst pings pid f) pid = (findPing pings pid).map f := by
  induction pings with
  | nil => simp [findPing, updateFirst]
  | cons p rest ih =>
    by_cases h : p.id = pid
    · have h1 : updateFirst (p :: rest) pid f = f p :: rest := by simp [updateFirst, h]
      rw [h1]
      have h2 : findPing (f p :: rest) pid = some (f p) := by
        apply List.find?_cons_of_pos
        simp [hf p, h]
      have h3 : findPing (p :: rest) pid = some p := by
        apply List.find?_cons_of_pos
        simp [h]
      rw [h2, h3]
      rfl
    · have h1 : updateFirst (p :: rest) pid f = p :: updateFirst rest pid f := by
        simp [updateFirst, h]
      rw [h1]
      have h2 : findPing (p :: updateFirst rest pid f) pid = findPing (updateFirst rest pid f) pid := by
        apply List.find?_cons_of_neg
        simp [h]
      have h3 : findPing (p :: rest) pid = findPing rest pid := by
        apply List.find?_cons_of_neg
        simp [h]
      rw [h2, h3]
      exact ih

/-- Every element of the updated list is an old element or the image
of an old element. -/
theorem mem_updateFirst (pings : List Ping) (pid : String) (f : Ping → Ping)
    (q : Ping) (hq : q ∈ updateFirst pings pid f) :
    q ∈ pings ∨ ∃ p ∈ pings, q = f p := by
  induction pings with
  | nil => simp [updateFirst] at hq
  | cons p rest ih =>
    by_cases h : p.id = pid
    · have h1 : updateFirst (p :: rest) pid f = f p :: rest := by simp [updateFirst, h]
      rw [h1, List.mem_cons] at hq
      rcases hq with hq | hq
      · exact Or.inr ⟨p, List.mem_cons_self .., hq⟩
      · exact Or.inl (List.mem_cons_of_mem _ hq)
    · have h1 : updateFirst (p :: rest) pid f = p :: updateFirst rest pid f := by
        simp [updateFirst, h]
      rw [h1, List.mem_cons] at hq
      rcases hq with hq | hq
      · exact Or.inl (hq ▸ List.mem_cons_self ..)
      · rcases ih hq with hm | ⟨p', hp', hfp⟩
        · exact Or.inl (List.mem_cons_of_mem _ hm)
        · exact Or.inr ⟨p', List.mem_cons_of_mem _ hp', hfp⟩

/-- Claim C1 (counterexample): a second accept call on a ping whose
status is already accepted, by a second authorized identity, does not
fail with Conflict: it returns the ok outcome and overwrites
acceptedBy with the second acceptor. -/
theorem ping_double_accept_no_conflict :
    ((ackPing (some ⟨"i2", "b#2", false, false, true, false⟩)
        ((ackPing (some ⟨"i1", "a#1", false, false, true, false⟩)
          [⟨"p1", "radio", "n", "c1", "c#0", "t0", "open", none⟩] "p1").2) "p1").1
      = AckResult.okAck) ∧
    (findPing
        ((ackPing (some ⟨"i2", "b#2", false, false, true, false⟩)
          ((ackPing (some ⟨"i1", "a#1", false, false, true, false⟩)
            [⟨"p1", "radio", "n", "c1", "c#0", "t0", "open", none⟩] "p1").2) "p1").2)
        "p1"
      = some ⟨"p1", "radio", "n", "c1", "c#0", "t0", "accepted", some ("i2", "b#2")⟩) := by
  decide

/-- Claim C1 (amended): the status field only ever moves to accepted:
every ping in the post-state of an accept is either unchanged or has
status accepted.  The transition is however not guarded: whenever the
ping exists and the caller passes the capability check, the call
returns ok, even if the ping is already accepted, and acceptedBy is
overwritten with the latest acceptor. -/
theorem ping_accept_last_write_wins (u : SessionUser) (pings : List Ping)
    (pid : String) (p : Ping) (hfind : findPing pings pid = some p)
    (hcap : lacksCap u p.testType = false) :
    (ackPing (some u) pings pid).1 = AckResult.okAck ∧
    findPing (ackPing (some u) pings pid).2 pid = some (acceptPing u p) ∧
    ∀ q ∈ (ackPing (some u) pings pid).2, q ∈ pings ∨ q.status = "accepted" := by
  simp only [lacksCap, Bool.or_eq_false_iff] at hcap
  obtain ⟨⟨ha, hb⟩, hc⟩ := hcap
  have hr : ackPing (some u) pings pid
      = (AckResult.okAck, updateFirst pings pid (acceptPing u)) := by
    simp only [ackPing, hfind, ha, hb, hc]
    simp
  refine ⟨by rw [hr], ?_, ?_⟩
  · rw [hr]
    have hupd := findPing_updateFirst pings pid (acceptPing u) (fun q => rfl)
    simp only [hupd, hfind]
    rfl
  · intro q hq
    rw [hr] at hq
    rcases mem_updateFirst pings pid (acceptPing u) q hq with hm | ⟨p', _, rfl⟩
    · exact Or.inl hm
    · exact Or.inr rfl

/-- Claim C1 (witness of the amended theorem, instantiated at a ping
that is already accepted). -/
theorem ping_accept_last_write_wins_witness :
    (findPing [⟨"p1", "radio", "n", "c1", "c#0", "t0", "accepted", some ("i1", "a#1")⟩] "p1"
      = some ⟨"p1", "radio", "n", "c1", "c#0", "t0", "accepted", some ("i1", "a#1")⟩) ∧
    lacksCap ⟨"i2", "b#2", false, false, true, false⟩ "radio" = false ∧
    ((ackPing (some ⟨"i2", "b#2", false, false, true, false⟩)
        [⟨"p1", "radio", "n", "c1", "c#0", "t0", "accepted", some ("i1", "a#1")⟩] "p1").1
      = AckResult.okAck) :=
  ⟨by decide, by decide,
    (ping_accept_last_write_wins ⟨"i2", "b#2", false, false, true, false⟩
      [⟨"p1", "radio", "n", "c1", "c#0", "t0", "accepted", some ("i1", "a#1")⟩] "p1"
      ⟨"p1", "radio", "n", "c1", "c#0", "t0", "accepted", some ("i1", "a#1")⟩
      (by decide) (by decide)).1⟩

/-- Claim C3: accepting an existing ping fails with the 403 outcome
and leaves the pings collection unchanged exactly when the identity
lacks the capability the testType requires: canRadio for radio, canMDT
for mdt, isTester or isEditor for academie; when the identity does not
lack it the capability check passes and the call returns ok. -/
theorem ping_accept_capability_gate (u : SessionUser) (pings : List Ping)
    (pid : String) (p : Ping) (hfind : findPing pings pid = some p) :
    (lacksCap u p.testType = true →
      ackPing (some u) pings pid = (AckResult.forbidden, pings)) ∧
    (lacksCap u p.testType = false →
      (ackPing (some u) pings pid).1 = AckResult.okAck) ∧
    (lacksCap u p.testType = true ↔
      (p.testType = "radio" ∧ u.canRadio = false) ∨
      (p.testType = "mdt" ∧ u.canMDT = false) ∨
      (p.testType = "academie" ∧ u.isTester = false ∧ u.isEditor = false)) ∧
    AckResult.forbidden.httpStatus = 403 := by
  refine ⟨?_, ?_, ?_, rfl⟩
  · intro hl
    by_cases hA : (p.testType == "radio" && !u.canRadio) = true
    · simp only [ackPing, hfind, hA]
      simp
    · rw [Bool.not_eq_true] at hA
      by_cases hB : (p.testType == "mdt" && !u.canMDT) = true
      · simp only [ackPing, hfind, hA, hB]
        simp
      · rw [Bool.not_eq_true] at hB
        have hC : (p.testType == "academie" && !(u.isTester || u.isEditor)) = true := by
          simp only [lacksCap, hA, hB, Bool.false_or, Bool.or_false] at hl
          exact hl
        simp only [ackPing, hfind, hA, hB, hC]
        simp
  · intro hl
    simp only [lacksCap, Bool.or_eq_false_iff] at hl
    obtain ⟨⟨ha, hb⟩, hc⟩ := hl
    simp only [ackPing, hfind, ha, hb, hc]
    simp
  · simp only [lacksCap, Bool.or_eq_true, Bool.and_eq_true, beq_iff_eq,
      Bool.not_eq_true', Bool.or_eq_false_iff]
    tauto

/-- Claim C3 (witness): a concrete mdt ping and an identity without
canMDT give the 403 outcome, and with canMDT give ok. -/
theorem ping_accept_capability_gate_witness :
    (findPing [⟨"p2", "mdt", "n", "c1", "c#0", "t0", "open", none⟩] "p2"
      = some ⟨"p2", "mdt", "n", "c1", "c#0", "t0", "open", none⟩) ∧
    lacksCap ⟨"i9", "z#9", true, false, true, false⟩ "mdt" = true ∧
    (ackPing (some ⟨"i9", "z#9", true, false, true, false⟩)
        [⟨"p2", "mdt", "n", "c1", "c#0", "t0", "open", none⟩] "p2"
      = (AckResult.forbidden, [⟨"p2", "mdt", "n", "c1", "c#0", "t0", "open", none⟩])) :=
  ⟨by decide, by decide,
    (ping_accept_capability_gate ⟨"i9", "z#9", true, false, true, false⟩
      [⟨"p2", "mdt", "n", "c1", "c#0", "t0", "open", none⟩] "p2"
      ⟨"p2", "mdt", "n", "c1", "c#0", "t0", "open", none⟩ (by decide)).1 (by decide)⟩

/-- Claim C2 (counterexample): when the role fetch fails but the
profile fetch succeeds, the login callback still creates a session:
the outcome carries a session user, with every capability flag false,
instead of leaving the session unset. -/
theorem login_role_fetch_failure_still_sets_session :
    callbackSession ⟨["tr"], ["er"], "rr", "mr", "ta"⟩ (some "c") true
      (some ⟨"1", "a", "0"⟩) none
      = CallbackOutcome.success ⟨"1", "a#0", false, false, false, false⟩ := by
  decide

/-- Claim C2 (amended): a failed profile fetch aborts the handler
before the session assignment, so no capability is granted and no
session is created; a failed role fetch grants no capability, all four
flags are false, but a session for the fetched profile is still
created. -/
theorem login_fetch_failure_behaviour (cfg : RoleConfig) (c : String)
    (user : DiscordUser) :
    (∀ memberOf : Option GuildMember,
      callbackSession cfg (some c) true none memberOf = CallbackOutcome.fetchCrash) ∧
    callbackSession cfg (some c) true (some user) none
      = CallbackOutcome.success
          ⟨user.id, user.username ++ "#" ++ user.discriminator,
            false, false, false, false⟩ := by
  constructor
  · intro memberOf
    rfl
  · rfl

/-- Claim C4 (counterexample): for an identity that is both tester and
editor, the first revision stores the roles list general, general,
which has a duplicate element; and the second revision copies a
request-body role the identity does not have into the stored record. -/
theorem duty_roles_duplicate_general_and_body_injection :
    dutyRoles ⟨"i3", "c#3", true, true, false, false⟩ = ["general", "general"] ∧
    ¬ (dutyRoles ⟨"i3", "c#3", true, true, false, false⟩).Nodup ∧
    dutyRolesV2 ⟨"i4", "d#4", false, false, false, false⟩ ["radio"] = ["radio"] := by
  decide

/-- Claim C4 (amended): in the first revision the stored roles are
derived solely from the capability flags, with radio present iff
canRadio, mdt iff canMDT and general iff isTester or isEditor, and no
element outside the three known names, but the list is duplicate-free
only when not both isTester and isEditor hold, general being stored
twice in that case; in the second revision general is derived from
isTester alone and the filtered request-body roles are appended, so a
body role can appear without the matching capability. -/
theorem duty_roles_characterisation (u : SessionUser) (body : List String) :
    ("radio" ∈ dutyRoles u ↔ u.canRadio = true) ∧
    ("mdt" ∈ dutyRoles u ↔ u.canMDT = true) ∧
    ("general" ∈ dutyRoles u ↔ (u.isTester = true ∨ u.isEditor = true)) ∧
    (∀ s ∈ dutyRoles u, s = "radio" ∨ s = "mdt" ∨ s = "general") ∧
    ((dutyRoles u).Nodup ↔ ¬(u.isTester = true ∧ u.isEditor = true)) ∧
    ("radio" ∈ dutyRolesV2 u body ↔ (u.canRadio = true ∨ "radio" ∈ body)) ∧
    ("mdt" ∈ dutyRolesV2 u body ↔ (u.canMDT = true ∨ "mdt" ∈ body)) ∧
    ("general" ∈ dutyRolesV2 u body ↔ (u.isTester = true ∨ "general" ∈ body)) := by
  obtain ⟨i, tg, t, e, r, m⟩ := u
  cases t <;> cases e <;> cases r <;> cases m <;>
    simp [dutyRoles, dutyRolesV2, List.mem_filter]

/-- Claim C4 (witness of the amended theorem, applied to a radio
instructor with an empty body). -/
theorem duty_roles_characterisation_witness :
    ("radio" ∈ dutyRoles ⟨"i5", "e#5", false, false, true, false⟩) ∧
    (("radio" : String) = "radio" ∨ ("radio" : String) = "mdt" ∨
      ("radio" : String) = "general") :=
  ⟨by decide,
    (duty_roles_characterisation ⟨"i5", "e#5", false, false, true, false⟩ []).2.2.2.1
      "radio" (by decide)⟩

/-- Claim C5 (counterexample): in the second revision the coverage
check answers false for academie even though a record with the general
role is on duty, where the claim asks for true. -/
theorem duty_allow_academie_false_despite_general :
    dutyAllowV2 [⟨"u1", "t1", ["general"], "s1"⟩] "academie" = false ∧
    (List.any [(⟨"u1", "t1", ["general"], "s1"⟩ : DutyRecord)]
      (fun u => u.roles.contains "general")) = true := by
  decide

/-- Claim C5 (amended): in the first revision the coverage check is
true iff some on-duty record holds the required capability, general
for academie, radio for radio, mdt for mdt, and false for every other
type; in the second revision radio and mdt behave the same but every
other type, academie included, is always false.  On the registry with
a single record whose roles are radio alone, both revisions answer
true for radio and false for mdt and for academie. -/
theorem duty_allow_characterisation (duty : List DutyRecord) :
    (dutyAllow duty "academie" = true ↔ ∃ r ∈ duty, "general" ∈ r.roles) ∧
    (dutyAllow duty "radio" = true ↔ ∃ r ∈ duty, "radio" ∈ r.roles) ∧
    (dutyAllow duty "mdt" = true ↔ ∃ r ∈ duty, "mdt" ∈ r.roles) ∧
    (∀ ty : String, lowerStr ty ≠ "academie" → lowerStr ty ≠ "radio" →
      lowerStr ty ≠ "mdt" → dutyAllow duty ty = false) ∧
    (dutyAllowV2 duty "radio" = true ↔ ∃ r ∈ duty, "radio" ∈ r.roles) ∧
    (dutyAllowV2 duty "mdt" = true ↔ ∃ r ∈ duty, "mdt" ∈ r.roles) ∧
    (∀ ty : String, lowerStr ty ≠ "radio" → lowerStr ty ≠ "mdt" →
      dutyAllowV2 duty ty = false) ∧
    dutyAllow [⟨"u1", "t1", ["radio"], "s1"⟩] "radio" = true ∧
    dutyAllow [⟨"u1", "t1", ["radio"], "s1"⟩] "mdt" = false ∧
    dutyAllow [⟨"u1", "t1", ["radio"], "s1"⟩] "academie" = false := by
  have ea : ((lowerStr "academie") == "academie") = true := by decide
  have er1 : ((lowerStr "radio") == "academie") = false := by decide
  have er2 : ((lowerStr "radio") == "radio") = true := by decide
  have em1 : ((lowerStr "mdt") == "academie") = false := by decide
  have em2 : ((lowerStr "mdt") == "radio") = false := by decide
  have em3 : ((lowerStr "mdt") == "mdt") = true := by decide
  refine ⟨?_, ?_, ?_, ?_, ?_, ?_, ?_, by decide, by decide, by decide⟩
  · simp [dutyAllow, ea, List.any_eq_true, List.contains]
  · simp [dutyAllow, er1, er2, List.any_eq_true, List.contains]
  · simp [dutyAllow, em1, em2, em3, List.any_eq_true, List.contains]
  · intro ty h1 h2 h3
    simp [dutyAllow, h1, h2, h3]
  · simp [dutyAllowV2, er2, List.any_eq_true, List.contains]
  · simp [dutyAllowV2, em2, em3, List.any_eq_true, List.contains]
  · intro ty h2 h3
    simp [dutyAllowV2, h2, h3]

/-- Claim C5 (witness of the amended theorem, applied at a type name
outside the recognised set). -/
theorem duty_allow_characterisation_witness :
    lowerStr "other" ≠ "academie" ∧ lowerStr "other" ≠ "radio" ∧
    lowerStr "other" ≠ "mdt" ∧
    dutyAllow [⟨"u1", "t1", ["radio"], "s1"⟩] "other" = false :=
  ⟨by decide, by decide, by decide,
    (duty_allow_characterisation [⟨"u1", "t1", ["radio"], "s1"⟩]).2.2.2.1
      "other" (by decide) (by decide) (by decide)⟩

/-- One bump adds exactly one to the total of the counter map. -/
theorem bump_sum (m : List (String × Nat)) (k : String) :
    ((bump m k).map Prod.snd).sum = ((m.map Prod.snd).sum) + 1 := by
  induction m with
  | nil => simp [bump]
  | cons qv rest ih =>
    obtain ⟨q, v⟩ := qv
    by_cases h : (q == k) = true
    · simp [bump, h]
      omega
    · rw [Bool.not_eq_true] at h
      simp [bump, h, ih]
      omega

/-- Folding bumps over a list adds the list length to the total of the
counter map. -/
theorem foldl_bump_sum (key : TestSubmission → String) (tests : List TestSubmission) :
    ∀ m : List (String × Nat),
      (((tests.foldl (fun acc t => bump acc (key t)) m).map Prod.snd).sum)
        = ((m.map Prod.snd).sum) + tests.length := by
  induction tests with
  | nil => intro m; simp
  | cons t rest ih =>
    intro m
    simp only [List.foldl_cons, List.length_cons]
    rw [ih (bump m (key t)), bump_sum]
    omega

/-- When every result is ADMIS or RESPINS, folding the byResult bumps
keeps the two counters numeric and their total tracks the length. -/
theorem byResult_sum_valid (tests : List TestSubmission) :
    ∀ a r : Nat, (∀ t ∈ tests, t.result = "ADMIS" ∨ t.result = "RESPINS") →
      sumJs (((tests.foldl (fun m t => bumpResult m t.result)
          [("ADMIS", JsNum.num a), ("RESPINS", JsNum.num r)]).map Prod.snd))
        = JsNum.num (a + r + tests.length) := by
  induction tests with
  | nil =>
    intro a r _
    simp [sumJs, JsNum.add]
  | cons t rest ih =>
    intro a r h
    have ht := h t (List.mem_cons_self ..)
    have hrest : ∀ t ∈ rest, t.result = "ADMIS" ∨ t.result = "RESPINS" :=
      fun t ht => h t (List.mem_cons_of_mem _ ht)
    simp only [List.foldl_cons, List.length_cons]
    rcases ht with ht | ht
    · rw [ht]
      have step : bumpResult [("ADMIS", JsNum.num a), ("RESPINS", JsNum.num r)] "ADMIS"
          = [("ADMIS", JsNum.num (a + 1)), ("RESPINS", JsNum.num r)] := rfl
      rw [step, ih (a + 1) r hrest]
      simp
      omega
    · rw [ht]
      have step : bumpResult [("ADMIS", JsNum.num a), ("RESPINS", JsNum.num r)] "RESPINS"
          = [("ADMIS", JsNum.num a), ("RESPINS", JsNum.num (r + 1))] := rfl
      rw [step, ih a (r + 1) hrest]
      simp
      omega

/-- Claim C6 (counterexample): a stored submission whose result is
outside the ADMIS or RESPINS domain, which the submit endpoint accepts
(see claim C7), makes the byResult counters sum to NaN rather than to
the total submission count. -/
theorem stats_byresult_not_total_on_unknown_result :
    sumJs ((byResult
        [⟨"t1", "AAAAAA", "u1", "radio", "HACK", "d1", "2024-01-01T10:00:00Z"⟩]).map Prod.snd)
      = JsNum.nan ∧
    JsNum.nan ≠ JsNum.num
      ([⟨"t1", "AAAAAA", "u1", "radio", "HACK", "d1", "2024-01-01T10:00:00Z"⟩]
        : List TestSubmission).length := by
  decide

/-- Claim C6 (amended): the byType and byDay counts always sum to the
total number of submissions along their dimension; the byResult counts
do so provided every stored result lies in the ADMIS or RESPINS
domain, while a submission with any other result value drives the
byResult counters to NaN. -/
theorem stats_dimension_sums (tests : List TestSubmission) :
    ((byType tests).map Prod.snd).sum = tests.length ∧
    ((byDay tests).map Prod.snd).sum = tests.length ∧
    ((∀ t ∈ tests, t.result = "ADMIS" ∨ t.result = "RESPINS") →
      sumJs ((byResult tests).map Prod.snd) = JsNum.num tests.length) := by
  refine ⟨?_, ?_, ?_⟩
  · simpa using foldl_bump_sum (fun t => t.testType) tests []
  · simpa using foldl_bump_sum dayOf tests []
  · intro h
    simpa using byResult_sum_valid tests 0 0 h

/-- Claim C6 (witness): the amended theorem applied to the worked
example of the specification, three submissions with valid results. -/
theorem stats_dimension_sums_witness :
    (∀ t ∈ sampleSubmissions, t.result = "ADMIS" ∨ t.result = "RESPINS") ∧
    sumJs ((byResult sampleSubmissions).map Prod.snd) = JsNum.num sampleSubmissions.length :=
  ⟨by decide, (stats_dimension_sums sampleSubmissions).2.2 (by decide)⟩

/-- Claim C7 (counterexample): with a registered tester code the
submit endpoint stores a record whose result is HACK, a value outside
the ADMIS or RESPINS domain, instead of rejecting the submission. -/
theorem submit_stores_unconstrained_result :
    (submitTest [("AAAAAA", ⟨"u1", "t0"⟩)] [] ⟨"AAAAAA", "radio", "HACK", "d"⟩ "id1" "now").1
      = SubmitOutcome.okSubmit ∧
    (submitTest [("AAAAAA", ⟨"u1", "t0"⟩)] [] ⟨"AAAAAA", "radio", "HACK", "d"⟩ "id1" "now").2
      = [⟨"id1", "AAAAAA", "u1", "radio", "HACK", "d", "now"⟩] ∧
    ¬ (("HACK" : String) = "ADMIS" ∨ ("HACK" : String) = "RESPINS") := by
  decide

/-- Claim C7 (amended): the endpoint never constrains the result
field: whenever the tester code is registered it stores the body
result verbatim, whatever string it is, and the only rejection is an
unregistered tester code, which leaves the tests collection
unchanged. -/
theorem submit_result_stored_verbatim (testers : List (String × TesterEntry))
    (tests : List TestSubmission) (body : SubmitBody) (newId now : String) :
    (∀ entry, lookupTester testers body.testerCode = some entry →
      submitTest testers tests body newId now
        = (SubmitOutcome.okSubmit, tests ++
            [⟨newId, body.testerCode, entry.userId, body.testType,
              body.result, body.details, now⟩])) ∧
    (lookupTester testers body.testerCode = none →
      submitTest testers tests body newId now = (SubmitOutcome.invalidCode, tests)) := by
  constructor
  · intro entry he
    simp [submitTest, he]
  · intro he
    simp [submitTest, he]

/-- Claim C7 (witness of the amended theorem). -/
theorem submit_result_stored_verbatim_witness :
    lookupTester [("AAAAAA", (⟨"u1", "t0"⟩ : TesterEntry))] "AAAAAA" = some ⟨"u1", "t0"⟩ ∧
    submitTest [("AAAAAA", ⟨"u1", "t0"⟩)] [] ⟨"AAAAAA", "radio", "HACK", "d"⟩ "id1" "now"
      = (SubmitOutcome.okSubmit, [⟨"id1", "AAAAAA", "u1", "radio", "HACK", "d", "now"⟩]) :=
  ⟨by decide,
    (submit_result_stored_verbatim [("AAAAAA", ⟨"u1", "t0"⟩)] []
      ⟨"AAAAAA", "radio", "HACK", "d"⟩ "id1" "now").1 ⟨"u1", "t0"⟩ (by decide)⟩

/-- Claim C8: a submit-test request whose tester code is not a key of
the testers registry answers the error payload and leaves the tests
collection unchanged; nothing is written. -/
theorem submit_unknown_code_writes_nothing (testers : List (String × TesterEntry))
    (tests : List TestSubmission) (body : SubmitBody) (newId now : String)
    (h : lookupTester testers body.testerCode = none) :
    submitTest testers tests body newId now = (SubmitOutcome.invalidCode, tests) := by
  simp [submitTest, h]

/-- Claim C8 (witness): the unregistered code ZZZZZZ from the
specification example. -/
theorem submit_unknown_code_writes_nothing_witness :
    lookupTester [("AAAAAA", (⟨"u1", "t0"⟩ : TesterEntry))] "ZZZZZZ" = none ∧
    submitTest [("AAAAAA", ⟨"u1", "t0"⟩)] [] ⟨"ZZZZZZ", "radio", "ADMIS", "d"⟩ "id1" "now"
      = (SubmitOutcome.invalidCode, []) :=
  ⟨by decide,
    submit_unknown_code_writes_nothing [("AAAAAA", ⟨"u1", "t0"⟩)] []
      ⟨"ZZZZZZ", "radio", "ADMIS", "d"⟩ "id1" "now" (by decide)⟩

/-- The registry lookup by code is empty exactly when no entry holds
the code as key. -/
theorem lookupTester_eq_none_iff (testers : List (String × TesterEntry)) (code : String) :
    lookupTester testers code = none ↔ ∀ p ∈ testers, p.1 ≠ code := by
  simp [lookupTester, List.find?_eq_none]

/-- The registry lookup by user is empty exactly when no entry holds
the user id. -/
theorem findByUser_eq_none_iff (testers : List (String × TesterEntry)) (uid : String) :
    findByUser testers uid = none ↔ ∀ p ∈ testers, p.2.userId ≠ uid := by
  simp [findByUser, List.find?_eq_none]

/-- Claim C9: the allocation step of the login callback preserves both
registry invariants: code keys stay duplicate-free, because the chosen
code is the first candidate not already present, so no two identities
hold the same code; and each identity keeps at most one code, because
nothing is allocated when the identity already holds one.  Existing
entries are never overwritten, and any new entry belongs to the
logging-in identity and uses a code that was free. -/
theorem tester_code_allocation_invariants (testers : List (String × TesterEntry))
    (isT : Bool) (uid now : String) (cands : List String)
    (hkeys : codesNodup testers) (huser : atMostOneCodePerUser testers) :
    codesNodup (testerCodeAlloc testers isT uid now cands) ∧
    atMostOneCodePerUser (testerCodeAlloc testers isT uid now cands) ∧
    (∀ e ∈ testers, e ∈ testerCodeAlloc testers isT uid now cands) ∧
    (∀ e ∈ testerCodeAlloc testers isT uid now cands,
      e ∈ testers ∨ (e.2.userId = uid ∧ lookupTester testers e.1 = none)) ∧
    ((findByUser testers uid).isSome → testerCodeAlloc testers isT uid now cands = testers) := by
  by_cases hc : (isT && (findByUser testers uid).isNone) = true
  · have hc' := hc
    rw [Bool.and_eq_true] at hc'
    have hnone : findByUser testers uid = none :=
      Option.isNone_iff_eq_none.mp hc'.2
    cases hfind : cands.find? (fun c => (lookupTester testers c).isNone) with
    | none =>
      have heq : testerCodeAlloc testers isT uid now cands = testers := by
        simp [testerCodeAlloc, hc, hfind]
      rw [heq]
      exact ⟨hkeys, huser, fun e he => he, fun e he => Or.inl he, fun _ => rfl⟩
    | some code =>
      have hfreshb : (lookupTester testers code).isNone = true := by
        simpa using
          List.find?_some (p := fun c => (lookupTester testers c).isNone) hfind
      have hfresh : lookupTester testers code = none :=
        Option.isNone_iff_eq_none.mp hfreshb
      have heq : testerCodeAlloc testers isT uid now cands
          = testers ++ [(code, ⟨uid, now⟩)] := by
        simp [testerCodeAlloc, hc, hfind]
      have hnotkey : code ∉ testers.map Prod.fst := by
        intro hmem
        obtain ⟨p, hp, hfst⟩ := List.mem_map.mp hmem
        exact (lookupTester_eq_none_iff testers code).mp hfresh p hp hfst
      have hnouser : ∀ p ∈ testers, p.2.userId ≠ uid :=
        (findByUser_eq_none_iff testers uid).mp hnone
      rw [heq]
      refine ⟨?_, ?_, ?_, ?_, ?_⟩
      · simp only [codesNodup, List.map_append, List.map_cons, List.map_nil]
        rw [List.nodup_append]
        exact ⟨hkeys, List.nodup_singleton code, by simpa [List.disjoint_right] using hnotkey⟩
      · intro p hp q hq hpq
        rcases List.mem_append.mp hp with hp | hp <;>
          rcases List.mem_append.mp hq with hq | hq
        · exact huser p hp q hq hpq
        · rw [List.mem_singleton.mp hq] at hpq ⊢
          exact absurd hpq (hnouser p hp)
        · rw [List.mem_singleton.mp hp] at hpq ⊢
          exact absurd hpq.symm (hnouser q hq)
        · rw [List.mem_singleton.mp hp, List.mem_singleton.mp hq]
      · exact fun e he => List.mem_append_left _ he
      · intro e he
        rcases List.mem_append.mp he with he | he
        · exact Or.inl he
        · rw [List.mem_singleton.mp he]
          exact Or.inr ⟨rfl, hfresh⟩
      · intro hsome
        rw [hnone] at hsome
        simp at hsome
  · have heq : testerCodeAlloc testers isT uid now cands = testers := by
      rw [Bool.not_eq_true] at hc
      simp [testerCodeAlloc, hc]
    rw [heq]
    exact ⟨hkeys, huser, fun e he => he, fun e he => Or.inl he, fun _ => rfl⟩

/-- Claim C9 (witness): a registry holding the code AA for one user;
a second user logs in, the first candidate AA collides, the retry
picks BB, and both invariants hold afterwards. -/
theorem tester_code_allocation_invariants_witness :
    codesNodup [("AA", (⟨"u1", "t0"⟩ : TesterEntry))] ∧
    atMostOneCodePerUser [("AA", (⟨"u1", "t0"⟩ : TesterEntry))] ∧
    testerCodeAlloc [("AA", ⟨"u1", "t0"⟩)] true "u2" "t1" ["AA", "BB"]
      = [("AA", ⟨"u1", "t0"⟩), ("BB", ⟨"u2", "t1"⟩)] ∧
    codesNodup (testerCodeAlloc [("AA", ⟨"u1", "t0"⟩)] true "u2" "t1" ["AA", "BB"]) :=
  ⟨by decide, by decide, by decide,
    (tester_code_allocation_invariants [("AA", ⟨"u1", "t0"⟩)] true "u2" "t1" ["AA", "BB"]
      (by decide) (by decide)).1⟩

/-- Claim C10: the tester-code endpoint answers an unauthenticated
request with status 200 and a null code, not 401, which is exactly the
response an authenticated identity with no allocated code receives. -/
theorem tester_code_unauth_same_as_codeless (u : SessionUser)
    (testers : List (String × TesterEntry)) (h : findByUser testers u.id = none) :
    testerCodeEndpoint none testers = ⟨200, none⟩ ∧
    testerCodeEndpoint (some u) testers = testerCodeEndpoint none testers ∧
    (testerCodeEndpoint none testers).httpStatus ≠ 401 := by
  refine ⟨rfl, ?_, ?_⟩
  · simp [testerCodeEndpoint, h]
  · simp [testerCodeEndpoint]

/-- Claim C10 (witness). -/
theorem tester_code_unauth_same_as_codeless_witness :
    findByUser [("AA", (⟨"u1", "t0"⟩ : TesterEntry))] "u2" = none ∧
    testerCodeEndpoint (some ⟨"u2", "x#1", true, false, false, false⟩)
        [("AA", ⟨"u1", "t0"⟩)]
      = testerCodeEndpoint none [("AA", ⟨"u1", "t0"⟩)] :=
  ⟨by decide,
    (tester_code_unauth_same_as_codeless ⟨"u2", "x#1", true, false, false, false⟩
      [("AA", ⟨"u1", "t0"⟩)] (by decide)).2.1⟩

end IPJ
